import Mathlib

/-!
Verification development for the computer-use orchestrator repository.

The embedding models, from the source:
  - the JSON-like values exchanged between the sessions and the model
    (dict/list/str/int/bool/None values, with the serialization used when a
    payload is embedded in a text block),
  - the database session: engine capability, catalog helpers, the operation
    executor, the diagnose-and-recover pipeline (including the stdlib
    close-match scoring used for fuzzy table suggestions) and its
    process_tool_calls,
  - the editor and bash sessions' process_tool_calls (their local side
    effecting handlers are external collaborators and appear as parameters),
  - the base session conversation loop (fuel-indexed, since the Python loop
    is an unbounded while-loop driven by an external model capability),
  - the orchestrator's analyze_task and execute_task.
-/

/-- Python-style JSON value: dict (insertion ordered), list, str, int, bool,
None. -/
inductive JVal where
  | str (s : String)
  | nat (n : Nat)
  | bool (b : Bool)
  | null
  | arr (xs : List JVal)
  | obj (kvs : List (String × JVal))
deriving Repr

/-- Key lookup on a dict value; none when the value is not a dict or the key
is absent. -/
def jlookup (v : JVal) (k : String) : Option JVal :=
  match v with
  | JVal.obj kvs => kvs.lookup k
  | _ => none

/-- Python truthiness of a JSON-like value. -/
def jTruthy : JVal → Bool
  | JVal.str s => s != ""
  | JVal.nat n => n != 0
  | JVal.bool b => b
  | JVal.null => false
  | JVal.arr xs => !xs.isEmpty
  | JVal.obj kvs => !kvs.isEmpty

/-- Escape one character the way json.dumps does for ASCII input. -/
def jsonEscChar (c : Char) : String :=
  if c = '"' then "\\\""
  else if c = '\\' then "\\\\"
  else if c = '\n' then "\\n"
  else if c = '\t' then "\\t"
  else if c = '\r' then "\\r"
  else String.singleton c

/-- Serialize a string literal as json.dumps does. -/
def jsonStr (s : String) : String :=
  "\"" ++ String.join (s.toList.map jsonEscChar) ++ "\""

mutual
/-- json.dumps with the default separators (compact, one line). -/
def dumps : JVal → String
  | JVal.str s => jsonStr s
  | JVal.nat n => toString n
  | JVal.bool b => if b then "true" else "false"
  | JVal.null => "null"
  | JVal.arr xs => "[" ++ String.intercalate ", " (dumpsList xs) ++ "]"
  | JVal.obj kvs => "\x7b" ++ String.intercalate ", " (dumpsKVs kvs) ++ "\x7d"

def dumpsList : List JVal → List String
  | [] => []
  | x :: xs => dumps x :: dumpsList xs

def dumpsKVs : List (String × JVal) → List String
  | [] => []
  | kv :: xs => (jsonStr kv.1 ++ ": " ++ dumps kv.2) :: dumpsKVs xs
end

/-- n spaces. -/
def spaces (n : Nat) : String := String.mk (List.replicate n ' ')

mutual
/-- json.dumps with indent=2 (level is the current indentation width). -/
def dumpsInd (level : Nat) : JVal → String
  | JVal.str s => jsonStr s
  | JVal.nat n => toString n
  | JVal.bool b => if b then "true" else "false"
  | JVal.null => "null"
  | JVal.arr xs =>
    match dumpsIndList (level + 2) xs with
    | [] => "[]"
    | items => "[\n" ++ String.intercalate ",\n" (items.map (fun it => spaces (level + 2) ++ it))
        ++ "\n" ++ spaces level ++ "]"
  | JVal.obj kvs =>
    match dumpsIndKVs (level + 2) kvs with
    | [] => "\x7b\x7d"
    | items => "\x7b\n" ++ String.intercalate ",\n" (items.map (fun it => spaces (level + 2) ++ it))
        ++ "\n" ++ spaces level ++ "\x7d"

def dumpsIndList (level : Nat) : List JVal → List String
  | [] => []
  | x :: xs => dumpsInd level x :: dumpsIndList level xs

def dumpsIndKVs (level : Nat) : List (String × JVal) → List String
  | [] => []
  | kv :: xs => (jsonStr kv.1 ++ ": " ++ dumpsInd level kv.2) :: dumpsIndKVs level xs
end

/-- Does the character list start with the given pattern? -/
def charsStartWith : List Char → List Char → Bool
  | _, [] => true
  | [], _ :: _ => false
  | c :: cs, d :: ds => c == d && charsStartWith cs ds

/-- Does the character list contain the pattern as a contiguous run? -/
def charsHaveSub (pat : List Char) : List Char → Bool
  | [] => pat.isEmpty
  | c :: rest => charsStartWith (c :: rest) pat || charsHaveSub pat rest

/-- Python substring containment (needle in hay). -/
def hasSubstr (hay needle : String) : Bool :=
  charsHaveSub needle.toList hay.toList

/-- Python str.lower for the ASCII text this program handles. -/
def lowerStr (s : String) : String :=
  String.mk (s.toList.map Char.toLower)

/-! ### Fuzzy table-name matching (difflib.get_close_matches as called by
_diagnose_error: n=3, cutoff=0.6, no junk, short sequences so autojunk is
inert). Similarity is the SequenceMatcher measure 2*M/T where M is the total
size of the matching blocks and T the combined length; 2*M/T >= 0.6 is
compared exactly (as 3*T <= 10*M). -/

/-- Ascending list of the positions of character c in b (the b2j table). -/
def posList (b : List Char) (c : Char) : List Nat :=
  (List.range b.length).filter (fun j => b.getD j ' ' == c)

/-- Best matching block found so far: start in a, start in b, size. -/
structure FlmBest where
  ai : Nat
  bj : Nat
  size : Nat
deriving Repr

/-- One row of the find_longest_match dynamic program: fold the positions of
a[i] in b, extending runs recorded in the previous row (j2len). -/
def flmRow (j2len : List (Nat × Nat)) (blo bhi i : Nat) (js : List Nat)
    (best : FlmBest) : List (Nat × Nat) × FlmBest :=
  js.foldl
    (fun acc j =>
      if j < blo || bhi ≤ j then acc
      else
        let prev := if j = 0 then 0 else (j2len.lookup (j - 1)).getD 0
        let k := prev + 1
        let best' := if decide (acc.2.size < k) then
            { ai := i + 1 - k, bj := j + 1 - k, size := k } else acc.2
        (acc.1 ++ [(j, k)], best'))
    ([], best)

/-- Run the rows of the dynamic program for the given a-indices. -/
def flmRows (a b : List Char) (blo bhi : Nat) :
    List Nat → List (Nat × Nat) → FlmBest → FlmBest
  | [], _, best => best
  | i :: is, j2len, best =>
    let row := flmRow j2len blo bhi i (posList b (a.getD i ' ')) best
    flmRows a b blo bhi is row.1 row.2

/-- SequenceMatcher.find_longest_match on a[alo:ahi] vs b[blo:bhi]
(no junk, so the junk-extension passes are inert). -/
def findLongestMatch (a b : List Char) (alo ahi blo bhi : Nat) : FlmBest :=
  flmRows a b blo bhi ((List.range (ahi - alo)).map (· + alo)) []
    { ai := alo, bj := blo, size := 0 }

/-- Total size of the matching blocks (the M of SequenceMatcher.ratio),
computed by the recursive block decomposition; the fuel bounds the recursion
depth (interval length strictly decreases, so a.length + 1 always suffices). -/
def matchBlocksSum (a b : List Char) : Nat → Nat → Nat → Nat → Nat → Nat
  | 0, _, _, _, _ => 0
  | fuel + 1, alo, ahi, blo, bhi =>
    let m := findLongestMatch a b alo ahi blo bhi
    if m.size = 0 then 0
    else
      m.size + matchBlocksSum a b fuel alo m.ai blo m.bj
        + matchBlocksSum a b fuel (m.ai + m.size) ahi (m.bj + m.size) bhi

/-- Total matched size for two whole strings (a is the candidate, b the
offending word, as in get_close_matches). -/
def numMatches (a b : List Char) : Nat :=
  matchBlocksSum a b (a.length + 1) 0 a.length 0 b.length

/-- The cutoff test of get_close_matches at cutoff 0.6:
2*M/(la+lb) >= 0.6, i.e. 3*(la+lb) <= 10*M, compared exactly. -/
def simKeepOK (candidate word : String) : Bool :=
  Nat.ble (3 * (candidate.length + word.length))
    (10 * numMatches candidate.toList word.toList)

/-- Descending comparison on scored entries (M, T, name): by the measure
2*M/T first (cross-multiplied), ties broken by the larger name, as the
tuple order used by heapq.nlargest on (score, name) pairs. -/
def scoreGt (p q : Nat × Nat × String) : Bool :=
  if p.1 * q.2.1 = q.1 * p.2.1 then decide (q.2.2 < p.2.2)
  else decide (q.1 * p.2.1 < p.1 * q.2.1)

/-- Insert keeping the list sorted descending; equal entries keep their
original relative order (stability of sorted(reverse=True)). -/
def insertScored (p : Nat × Nat × String) : List (Nat × Nat × String) → List (Nat × Nat × String)
  | [] => [p]
  | q :: qs => if scoreGt p q then p :: q :: qs else q :: insertScored p qs

/-- Stable descending sort of the scored entries. -/
def sortScoredDesc (l : List (Nat × Nat × String)) : List (Nat × Nat × String) :=
  l.foldl (fun acc p => insertScored p acc) []

/-- difflib.get_close_matches word possibilities n at cutoff 0.6: keep the
candidates whose similarity reaches the cutoff and return the n best names,
best first. -/
def get_close_matches (word : String) (possibilities : List String) (n : Nat) : List String :=
  let scored := possibilities.filterMap (fun x =>
    let m := numMatches x.toList word.toList
    let t := x.length + word.length
    if Nat.ble (3 * t) (10 * m) then some (m, t, x) else none)
  ((sortScoredDesc scored).take n).map (fun p => p.2.2)

/-! ### The error-message pattern of _diagnose_error:
re.search against r'relation "(.*?)" does not exist'. -/

/-- The literal opening of the pattern. -/
def relOpenPat : List Char := "relation \"".toList

/-- The literal closing of the pattern. -/
def relClosePat : List Char := "\" does not exist".toList

/-- Scan for the nearest closing literal; the non-greedy capture is the text
before it and may not span a newline (the dot of the pattern). -/
def relScanClose (acc : List Char) : List Char → Option (List Char)
  | [] => none
  | c :: rest =>
    if charsStartWith (c :: rest) relClosePat then some acc.reverse
    else if c = '\n' then none
    else relScanClose (c :: acc) rest

/-- re.search: try every start position left to right; at a start matching
the opening literal, succeed on the nearest newline-free closing. -/
def relSearch : List Char → Option String
  | [] => none
  | c :: rest =>
    if charsStartWith (c :: rest) relOpenPat then
      match relScanClose [] ((c :: rest).drop relOpenPat.length) with
      | some cap => some (String.mk cap)
      | none => relSearch rest
    else relSearch rest

/-- The captured table name of the undefined-relation error pattern, when
the error message matches it. -/
def relationCapture (msg : String) : Option String :=
  relSearch msg.toList

/-! ### Database session (db_session.py). The engine is the external database
capability: execute/fetch_all/fetch_one over SQL text and parameters; a
raised driver error is an Except.error carrying the message text. -/

/-- A row, as the engines return it: ordered column-name to value mapping. -/
abbrev Row := List (String × JVal)

/-- The database engine capability used by DBSession. -/
structure Engine where
  fetch_all : String → Option (List JVal) → Except String (List Row)
  fetch_one : String → Option (List JVal) → Except String (Option Row)

/-- The structured tool input of one tool_use block (dict of arguments). -/
abbrev ToolInput := List (String × JVal)

/-- The catalog query of get_tables (the exact triple-quoted SQL text). -/
def tablesQuery : String :=
  "\n            SELECT table_name \n            FROM information_schema.tables \n            WHERE table_schema = \x27public\x27\n        "

/-- The catalog query of get_table_schema. -/
def tableSchemaQuery : String :=
  "\n            SELECT column_name, data_type, is_nullable, column_default\n            FROM information_schema.columns\n            WHERE table_schema = \x27public\x27 AND table_name = %s\n            ORDER BY ordinal_position\n        "

/-- The catalog query of get_table_constraints. -/
def tableConstraintsQuery : String :=
  "\n            SELECT c.conname as constraint_name,\n                   c.contype as constraint_type,\n                   pg_get_constraintdef(c.oid) as definition\n            FROM pg_constraint c\n            JOIN pg_namespace n ON n.oid = c.connamespace\n            JOIN pg_class t ON t.oid = c.conrelid\n            WHERE t.relname = %s AND n.nspname = \x27public\x27\n        "

/-- The catalog query of get_table_indexes. -/
def tableIndexesQuery : String :=
  "\n            SELECT indexname, indexdef\n            FROM pg_indexes\n            WHERE tablename = %s AND schemaname = \x27public\x27\n        "

/-- get_tables: list the public-schema table names; a row without the
table_name column would be a KeyError (raised, hence Except.error). -/
def get_tables (eng : Engine) : Except String (List String) := do
  let rows ← eng.fetch_all tablesQuery none
  rows.mapM (fun r =>
    match r.lookup "table_name" with
    | some (JVal.str s) => Except.ok s
    | _ => Except.error "KeyError: \x27table_name\x27")

/-- get_table_schema: column rows of one table (the name is bound as a query
parameter, so it stays a JSON value here, as Python passes it through). -/
def get_table_schema (eng : Engine) (table_name : JVal) : Except String (List Row) :=
  eng.fetch_all tableSchemaQuery (some [table_name])

/-- get_table_constraints of one table. -/
def get_table_constraints (eng : Engine) (table_name : JVal) : Except String (List Row) :=
  eng.fetch_all tableConstraintsQuery (some [table_name])

/-- get_table_indexes of one table. -/
def get_table_indexes (eng : Engine) (table_name : JVal) : Except String (List Row) :=
  eng.fetch_all tableIndexesQuery (some [table_name])

/-- Rows as a JSON list of dicts. -/
def rowsJ (rows : List Row) : JVal := JVal.arr (rows.map JVal.obj)

/-- tool_call.input.get("operation"): the operation name, a string in every
declared schema; a missing or None value prints as "None" in the
unknown-operation message, as Python would format it. -/
def operationOf (input : ToolInput) : String :=
  match input.lookup "operation" with
  | some (JVal.str s) => s
  | _ => "None"

/-- _execute_operation: the four recognized operations; anything else raises
the unknown-operation ValueError. -/
def execute_operation (eng : Engine) (operation : String) (tool_call : ToolInput) :
    Except String JVal :=
  if operation = "query" then
    match tool_call.lookup "query" with
    | some (JVal.str q) => do
      let rows ← eng.fetch_all q none
      Except.ok (rowsJ rows)
    | _ => Except.error "TypeError: query text must be a string"
  else if operation = "list_tables" then do
    let ts ← get_tables eng
    Except.ok (JVal.arr (ts.map JVal.str))
  else if operation = "inspect_table" then do
    let t := (tool_call.lookup "table_name").getD JVal.null
    let s ← get_table_schema eng t
    let c ← get_table_constraints eng t
    let i ← get_table_indexes eng t
    Except.ok (JVal.obj [("schema", rowsJ s), ("constraints", rowsJ c), ("indexes", rowsJ i)])
  else if operation = "get_schema" then do
    let tables ← get_tables eng
    let entries ← tables.mapM (fun t => do
      let s ← get_table_schema eng (JVal.str t)
      let c ← get_table_constraints eng (JVal.str t)
      let i ← get_table_indexes eng (JVal.str t)
      Except.ok (t, JVal.obj [("schema", rowsJ s), ("constraints", rowsJ c), ("indexes", rowsJ i)]))
    Except.ok (JVal.obj entries)
  else
    Except.error ("Unknown operation: " ++ operation)

/-- The diagnosis dict built by _diagnose_error (dict.update on the base
dict becomes optional fields). -/
structure Diagnosis where
  recoverable : Bool
  diagnosis : String
  suggestion : String
  recovery_action : Option String
  similar_tables : Option (List String)
  schema : Option (List Row)
deriving Repr

/-- The base diagnosis before any pattern matches. -/
def baseDiagnosis : Diagnosis :=
  { recoverable := false, diagnosis := "", suggestion := "",
    recovery_action := none, similar_tables := none, schema := none }

/-- tool_call.get("table_name", "") where a table name is used as text. -/
def tableNameArg (tool_call : ToolInput) : String :=
  match tool_call.lookup "table_name" with
  | some (JVal.str s) => s
  | _ => ""

/-- _diagnose_error: classify the raised error text; the catalog lookups it
performs can themselves raise (Except.error, caught one level up). -/
def diagnose_error (eng : Engine) (error_message : String) (_operation : String)
    (tool_call : ToolInput) : Except String Diagnosis :=
  if hasSubstr error_message "relation" && hasSubstr error_message "does not exist" then
    match relationCapture error_message with
    | some table_name => do
      let available_tables ← get_tables eng
      let similar := get_close_matches table_name available_tables 3
      Except.ok { baseDiagnosis with
        recoverable := true,
        diagnosis := "Table \x27" ++ table_name ++ "\x27 not found",
        suggestion := if !similar.isEmpty then
            "Similar tables: " ++ String.intercalate ", " similar
          else "No similar tables found",
        recovery_action := some "suggest_tables",
        similar_tables := some similar }
    | none => Except.ok baseDiagnosis
  else if hasSubstr error_message "column" && hasSubstr error_message "does not exist" then
    let table_name := tableNameArg tool_call
    if table_name != "" then do
      let schema ← get_table_schema eng (JVal.str table_name)
      let available_columns ← schema.mapM (fun col =>
        match col.lookup "column_name" with
        | some (JVal.str s) => Except.ok s
        | _ => Except.error "KeyError: \x27column_name\x27")
      Except.ok { baseDiagnosis with
        recoverable := true,
        diagnosis := "Invalid column in table \x27" ++ table_name ++ "\x27",
        suggestion := "Available columns: " ++ String.intercalate ", " available_columns,
        recovery_action := some "show_schema",
        schema := some schema }
    else Except.ok baseDiagnosis
  else if hasSubstr (lowerStr error_message) "permission denied" then
    Except.ok { baseDiagnosis with
      diagnosis := "Insufficient permissions",
      suggestion := "Please check database user permissions" }
  else Except.ok baseDiagnosis

/-- _attempt_recovery: turn a recoverable diagnosis into a recovery_info
payload; for suggest_tables each similar table's schema and one sample row
are fetched best effort (a per-table failure omits that table); for
show_schema a missing schema entry would be a KeyError. -/
def attempt_recovery (eng : Engine) (error_info : Diagnosis) (_operation : String)
    (_tool_call : ToolInput) : Except String JVal :=
  if error_info.recovery_action = some "suggest_tables" then
    let similar := error_info.similar_tables.getD []
    let table_info := similar.foldl (fun acc t =>
      match get_table_schema eng (JVal.str t) with
      | Except.error _ => acc
      | Except.ok schema =>
        match eng.fetch_one ("SELECT * FROM " ++ t ++ " LIMIT 1") none with
        | Except.error _ => acc
        | Except.ok sample =>
          acc ++ [(t, JVal.obj [("schema", rowsJ schema),
            ("sample_data", match sample with | some r => JVal.obj r | none => JVal.null)])]) []
    Except.ok (JVal.obj [("recovery_info", JVal.obj [
      ("type", JVal.str "table_suggestions"),
      ("similar_tables", JVal.obj table_info),
      ("original_error", JVal.str error_info.diagnosis),
      ("suggestion", JVal.str error_info.suggestion)])])
  else if error_info.recovery_action = some "show_schema" then
    match error_info.schema with
    | some schema =>
      Except.ok (JVal.obj [("recovery_info", JVal.obj [
        ("type", JVal.str "schema_info"),
        ("schema", rowsJ schema),
        ("original_error", JVal.str error_info.diagnosis),
        ("suggestion", JVal.str error_info.suggestion)])])
    | none => Except.error "KeyError: \x27schema\x27"
  else
    Except.ok (JVal.obj [("error", JVal.str "Unable to recover from error"),
      ("diagnosis", JVal.str error_info.diagnosis)])

/-- _handle_operation: execute, and on failure diagnose and either recover,
report non-recoverable error details, or report a failed recovery attempt.
Every raised exception is caught here, so the result is a plain value. -/
def handle_operation (eng : Engine) (operation : String) (tool_call : ToolInput) : JVal :=
  match execute_operation eng operation tool_call with
  | Except.ok v => v
  | Except.error e =>
    match diagnose_error eng e operation tool_call with
    | Except.error recovery_error =>
      JVal.obj [("error", JVal.str ("Original error: " ++ e ++ "\nRecovery failed: " ++ recovery_error))]
    | Except.ok error_info =>
      if error_info.recoverable then
        match attempt_recovery eng error_info operation tool_call with
        | Except.ok v => v
        | Except.error recovery_error =>
          JVal.obj [("error", JVal.str ("Original error: " ++ e ++ "\nRecovery failed: " ++ recovery_error))]
      else
        JVal.obj [("error", JVal.str e), ("diagnosis", JVal.str error_info.diagnosis),
          ("suggested_fix", JVal.str error_info.suggestion)]

/-! ### The message protocol shared by the sessions. -/

/-- The output dict of one tool result (the constant "type": "tool_result"
entry is implicit; content is the list of text blocks' texts; the
is_recoverable key exists only when the database session sets it). -/
structure ToolOutput where
  content : List String
  tool_use_id : String
  is_error : Bool
  is_recoverable : Option Bool
deriving Repr

/-- One entry of a process_tool_calls result list. -/
structure ToolCallResult where
  tool_call_id : String
  output : ToolOutput
deriving Repr

/-- A content block of a conversation turn: plain text, a model-emitted
tool_use block (id, tool name, structured input), or an appended tool
result. -/
inductive ContentItem where
  | text (s : String)
  | toolUse (id : String) (name : String) (input : ToolInput)
  | toolResult (o : ToolOutput)
deriving Repr

/-- One conversation turn. -/
structure Message where
  role : String
  content : List ContentItem
deriving Repr

/-- The last text block over the assistant turns scanned by the database
process_tool_calls (each text block overwrites the previous value). -/
def analysisText (messages : List Message) : Option String :=
  messages.foldl (fun acc msg =>
    if msg.role == "assistant" && !msg.content.isEmpty then
      msg.content.foldl (fun a c =>
        match c with
        | ContentItem.text s => some s
        | _ => a) acc
    else acc) none

/-- The body of the per-call loop of DBSession.process_tool_calls: process
one block, extending the accumulated (self.messages, results) pair. -/
def db_tool_call_step (eng : Engine) (acc : List Message × List ToolCallResult)
    (tc : ContentItem) : List Message × List ToolCallResult :=
  match tc with
  | ContentItem.toolUse id name input =>
    if name = "database" then
      let operation := operationOf input
      let result := handle_operation eng operation input
      match jlookup result "recovery_info" with
      | some payload =>
        (acc.1 ++ [{ role := "system", content := [ContentItem.text
            ("Error occurred but recovery information is available:\n" ++ dumpsInd 0 payload)] }],
         acc.2 ++ [{ tool_call_id := id, output := {
           content := [dumps (JVal.obj [("error", JVal.bool true), ("recovery_info", payload)])],
           tool_use_id := id, is_error := true, is_recoverable := some true } }])
      | none =>
        let analysis := analysisText acc.1
        let combined := JVal.obj [
          ("analysis", match analysis with | some s => JVal.str s | none => JVal.null),
          ("data", result)]
        (acc.1,
         acc.2 ++ [{ tool_call_id := id, output := {
           content := [dumps combined],
           tool_use_id := id, is_error := false, is_recoverable := none } }])
    else acc
  | _ => acc

/-- DBSession.process_tool_calls: processes only tool_use blocks named
database; threads self.messages because the recovery path appends a
system-role message carrying the recovery data. -/
def db_process_tool_calls (eng : Engine) (enabled : Bool)
    (tool_calls : List ContentItem) (messages : List Message) :
    List Message × List ToolCallResult :=
  if !enabled then
    (messages, tool_calls.filterMap (fun tc =>
      match tc with
      | ContentItem.toolUse id name _ =>
        if name = "database" then
          some { tool_call_id := id, output := {
            content := ["Database functionality is not enabled. Please configure database settings in .env file."],
            tool_use_id := id, is_error := true, is_recoverable := some false } }
        else none
      | _ => none))
  else
    tool_calls.foldl (db_tool_call_step eng) (messages, [])

/-- The local handlers of the editor and bash sessions return a Python dict
with either a content or an error entry; both sessions convert it with the
same truthiness test on the error entry. -/
def wrapHandlerResult (res : List (String × String)) : Bool × List String :=
  match res.lookup "error" with
  | some e => if e != "" then (true, [e]) else (false, [(res.lookup "content").getD ""])
  | none => (false, [(res.lookup "content").getD ""])

/-- EditorSession.process_tool_calls: the on-disk edit primitives are the
external file-edit capability, abstracted as the handler argument
(handle_text_editor_tool). -/
def editor_process_tool_calls (handler : ToolInput → List (String × String))
    (tool_calls : List ContentItem) : List ToolCallResult :=
  tool_calls.filterMap (fun tc =>
    match tc with
    | ContentItem.toolUse id name input =>
      if name = "str_replace_editor" then
        let r := wrapHandlerResult (handler input)
        some { tool_call_id := id, output := {
          content := r.2, tool_use_id := id, is_error := r.1, is_recoverable := none } }
      else none
    | _ => none)

/-- BashSession.process_tool_calls: the subprocess execution is the external
capability, abstracted as the handler argument (_handle_bash_command). -/
def bash_process_tool_calls (handler : ToolInput → List (String × String))
    (tool_calls : List ContentItem) : List ToolCallResult :=
  tool_calls.filterMap (fun tc =>
    match tc with
    | ContentItem.toolUse id name input =>
      if name = "bash" then
        let r := wrapHandlerResult (handler input)
        some { tool_call_id := id, output := {
          content := r.2, tool_use_id := id, is_error := r.1, is_recoverable := none } }
      else none
    | _ => none)

/-! ### The conversation loop (BaseSession._process_messages). The model
capability is the external collaborator get_reply (reply for the i-th round
trip); a session's tool dispatch is exec, which receives the reply content
and the current conversation and may extend the conversation (the database
session appends a recovery message). The Python loop is unbounded, so the
embedding is fuel-indexed: fuelOut is the artifact of running out of fuel,
never a behavior of the program. -/

/-- One model reply: content blocks, stop reason, token usage. -/
structure ModelReply where
  content : List ContentItem
  stop_reason : String
  input_tokens : Nat
  output_tokens : Nat

/-- The final_result record of the loop. -/
structure FinalResult where
  complete : Bool
  content : Option ToolOutput
  is_error : Bool
deriving Repr

/-- The loop state: conversation, token counters, number of model calls
made, running final result. -/
structure LoopSt where
  messages : List Message
  input_tokens : Nat
  output_tokens : Nat
  model_calls : Nat
  final : FinalResult

/-- Outcome of the loop: normal return, a raised exception (surfaced to the
caller), or fuel exhaustion (an artifact of the embedding). -/
inductive LoopOut where
  | ok (st : LoopSt)
  | crash (msg : String)
  | fuelOut (st : LoopSt)

/-- The fixed completion markers checked on the reply text. -/
def completionMarkers : List String := ["task complete", "finished", "done"]

/-- Case-insensitive substring test against the fixed markers. -/
def hasCompletionMarker (t : String) : Bool :=
  completionMarkers.any (fun m => hasSubstr (lowerStr t) m)

/-- The while-loop of _process_messages: send, append the assistant turn,
then either inspect the text for completion markers and stop, or dispatch
the tool calls, append the first result as a user turn and stop on its error
flag. Reading .text of a first block that is not a text block raises. -/
def conversationLoop (get_reply : Nat → ModelReply)
    (exec : List ContentItem → List Message → List Message × List ToolCallResult) :
    Nat → Nat → LoopSt → LoopOut
  | 0, _, st => LoopOut.fuelOut st
  | fuel + 1, i, st =>
    let response := get_reply i
    let st1 : LoopSt := { st with
      input_tokens := st.input_tokens + response.input_tokens,
      output_tokens := st.output_tokens + response.output_tokens,
      model_calls := st.model_calls + 1,
      messages := st.messages ++ [{ role := "assistant", content := response.content }] }
    if response.stop_reason ≠ "tool_use" then
      match response.content with
      | ContentItem.text t :: _ =>
        LoopOut.ok { st1 with final := { st1.final with
          complete := st1.final.complete || hasCompletionMarker t } }
      | _ => LoopOut.crash "AttributeError: text"
    else
      let step := exec response.content st1.messages
      let st2 : LoopSt := { st1 with messages := step.1 }
      match step.2 with
      | [] => conversationLoop get_reply exec fuel (i + 1) st2
      | tr :: _ =>
        let st3 : LoopSt := { st2 with
          final := { st2.final with content := some tr.output, is_error := tr.output.is_error },
          messages := st2.messages ++ [{ role := "user", content := [ContentItem.toolResult tr.output] }] }
        if tr.output.is_error then LoopOut.ok st3
        else conversationLoop get_reply exec fuel (i + 1) st3

/-- _process_messages: seed the conversation with the user turn (plus the
serialized previous result of a chained step, when present) and run the
loop. The tool schemas and system prompt only parameterize the external
model capability, i.e. get_reply. -/
def process_messages (get_reply : Nat → ModelReply)
    (exec : List ContentItem → List Message → List Message × List ToolCallResult)
    (fuel : Nat) (user_input : String) (previous_result : Option JVal) : LoopOut :=
  let message_content := [ContentItem.text user_input] ++
    (match previous_result with
     | some pr => [ContentItem.text ("\nPrevious tool result: " ++ dumps pr)]
     | none => [])
  conversationLoop get_reply exec fuel 0
    { messages := [{ role := "user", content := message_content }],
      input_tokens := 0, output_tokens := 0, model_calls := 0,
      final := { complete := false, content := none, is_error := false } }

/-- DBSession.process_query: run the loop with the database dispatcher and
return its result. -/
def process_query (eng : Engine) (enabled : Bool) (get_reply : Nat → ModelReply)
    (fuel : Nat) (user_input : String) (previous_result : Option JVal) : LoopOut :=
  process_messages get_reply
    (fun blocks msgs => db_process_tool_calls eng enabled blocks msgs)
    fuel user_input previous_result

/-- EditorSession.process_edit: run the loop with the editor dispatcher and
return its result. -/
def process_edit (handler : ToolInput → List (String × String))
    (get_reply : Nat → ModelReply) (fuel : Nat) (edit_prompt : String)
    (previous_result : Option JVal) : LoopOut :=
  process_messages get_reply
    (fun blocks msgs => (msgs, editor_process_tool_calls handler blocks))
    fuel edit_prompt previous_result

/-- BashSession.process_bash_command: runs the loop with the bash dispatcher
but DOES NOT return its result; the Python method has no return statement,
so the caller always receives None. -/
def process_bash_command (handler : ToolInput → List (String × String))
    (get_reply : Nat → ModelReply) (fuel : Nat) (bash_prompt : String)
    (previous_result : Option JVal) : Option LoopOut :=
  let _ := process_messages get_reply
    (fun blocks msgs => (msgs, bash_process_tool_calls handler blocks))
    fuel bash_prompt previous_result
  none

/-! ### The orchestrator (orchestrator.py). The model call of analyze_task
and the json.loads parse are the external capabilities; each tool session
is, at this level, a function from (input, optional previous result) to an
optional final-result value (BashSession returns None). execute_task is
instrumented with the list of (tool, input) session invocations it makes, in
order, so that sequencing claims can be stated. -/

/-- The fixed fallback analysis returned when analyze_task fails. -/
def default_analysis : JVal := JVal.obj [
  ("primary_tool", JVal.str "editor"),
  ("secondary_tools", JVal.arr []),
  ("task_type", JVal.str "unknown"),
  ("suggested_approach", JVal.str "direct execution")]

/-- analyze_task: one model call, parse the reply as JSON; any transport or
parse failure falls back to the fixed default. The second component is the
log stream written while handling the request. -/
def analyze_task (model_call : Except String String)
    (json_loads : String → Except String JVal) : JVal × List String :=
  match model_call with
  | Except.error e => (default_analysis, ["Error analyzing task: " ++ e])
  | Except.ok text =>
    match json_loads text with
    | Except.error e => (default_analysis, ["Error analyzing task: " ++ e])
    | Except.ok analysis => (analysis, ["Task analysis: " ++ dumps analysis])

/-- The four tool sessions as the orchestrator calls them. -/
structure SessionFns where
  editor : JVal → Option JVal → Option JVal
  bash : JVal → Option JVal → Option JVal
  mermaid : JVal → Option JVal → Option JVal
  database : JVal → Option JVal → Option JVal

/-- Python equality of a JSON value with a string literal (a non-string
value never equals a string). -/
def jIsStr (v : JVal) (s : String) : Bool :=
  match v with
  | JVal.str t => t == s
  | _ => false

/-- dict.get with a default on an analysis value. -/
def jGetD (v : JVal) (k : String) (d : JVal) : JVal := (jlookup v k).getD d

/-- A list-valued analysis entry (used for the zip over secondary tools). -/
def jGetList (v : JVal) (k : String) : List JVal :=
  match jlookup v k with
  | some (JVal.arr xs) => xs
  | _ => []

/-- result.get("is_error") on an optional session result. -/
def resultIsErrorVal (result : Option JVal) : JVal :=
  match result with
  | some v => (jlookup v "is_error").getD JVal.null
  | none => JVal.null

/-- The truthiness test guarding the secondary loop:
result and not result.get("is_error"). -/
def secondaryGuard (result : Option JVal) : Bool :=
  (match result with | some v => jTruthy v | none => false)
    && !jTruthy (resultIsErrorVal result)

/-- Dispatch the primary tool; an unrecognized primary tool name raises. -/
def primaryRun (s : SessionFns) (primary_tool primary_input : JVal) :
    Except String (Option JVal) :=
  if jIsStr primary_tool "editor" then Except.ok (s.editor primary_input none)
  else if jIsStr primary_tool "bash" then Except.ok (s.bash primary_input none)
  else if jIsStr primary_tool "mermaid" then Except.ok (s.mermaid primary_input none)
  else if jIsStr primary_tool "database" then Except.ok (s.database primary_input none)
  else Except.error ("Unknown tool: " ++ dumps primary_tool)

/-- Dispatch one secondary tool; an unrecognized name has no branch, so no
call is made and the running result is unchanged (none here). -/
def secondaryRun (s : SessionFns) (tool tool_input : JVal) (prev : Option JVal) :
    Option (Option JVal) :=
  if jIsStr tool "editor" then some (s.editor tool_input prev)
  else if jIsStr tool "bash" then some (s.bash tool_input prev)
  else if jIsStr tool "mermaid" then some (s.mermaid tool_input prev)
  else if jIsStr tool "database" then some (s.database tool_input prev)
  else none

/-- Is the tool name one of the four dispatched branches? -/
def knownSecondary (tool : JVal) : Bool :=
  jIsStr tool "editor" || jIsStr tool "bash" ||
    jIsStr tool "mermaid" || jIsStr tool "database"

/-- The zipped (secondary tool, secondary input) pairs of an analysis. -/
def secondaryPairs (analysis : JVal) : List (JVal × JVal) :=
  (jGetList analysis "secondary_tools").zip (jGetList analysis "secondary_inputs")

/-- The fold body of the secondary loop: run the tool, reassign the running
result, record the invocation. -/
def secondaryStep (s : SessionFns) (acc : Option JVal × List (JVal × JVal))
    (p : JVal × JVal) : Option JVal × List (JVal × JVal) :=
  match secondaryRun s p.1 p.2 acc.1 with
  | some r => (r, acc.2 ++ [(p.1, p.2)])
  | none => acc

/-- execute_task: run the primary tool, then, if the primary result is
truthy and carries no error flag, run every zipped secondary pair in order,
each receiving the running result; the result of a step never interrupts
the chain. Returns the final running result and the ordered invocation
log. -/
def execute_task (s : SessionFns) (user_input : String) (analysis : JVal) :
    Except String (Option JVal × List (JVal × JVal)) :=
  let primary_tool := jGetD analysis "primary_tool" (JVal.str "editor")
  let primary_input := jGetD analysis "primary_input" (JVal.str user_input)
  match primaryRun s primary_tool primary_input with
  | Except.error e => Except.error e
  | Except.ok result =>
    if secondaryGuard result then
      Except.ok ((secondaryPairs analysis).foldl (secondaryStep s)
        (result, [(primary_tool, primary_input)]))
    else
      Except.ok (result, [(primary_tool, primary_input)])

/-! ### Concrete fixtures: a small engine over three tables and a scripted
model, used to instantiate the theorems on closed inputs. -/

/-- A concrete engine: tables users, user_roles, orders; a query against the
misspelled usres raises the undefined-relation error; other free-form SQL
raises a syntax error. -/
def demoEngine : Engine where
  fetch_all q ps :=
    if q = tablesQuery then
      Except.ok [[("table_name", JVal.str "users")],
        [("table_name", JVal.str "user_roles")],
        [("table_name", JVal.str "orders")]]
    else if q = tableSchemaQuery then
      (match ps with
       | some [JVal.str "users"] =>
         Except.ok [[("column_name", JVal.str "id"), ("data_type", JVal.str "integer"),
           ("is_nullable", JVal.str "NO"), ("column_default", JVal.null)]]
       | _ => Except.ok [])
    else if q = tableConstraintsQuery then Except.ok []
    else if q = tableIndexesQuery then Except.ok []
    else if q = "SELECT * FROM usres" then
      Except.error "relation \"usres\" does not exist"
    else Except.error ("syntax error at or near \"" ++ q ++ "\"")
  fetch_one q _ :=
    if q = "SELECT * FROM users LIMIT 1" then Except.ok (some [("id", JVal.nat 1)])
    else Except.ok none

/-- The tool input of a query against the misspelled table. -/
def usresInput : ToolInput :=
  [("operation", JVal.str "query"), ("query", JVal.str "SELECT * FROM usres")]

/-- A scripted model: first a tool_use reply querying the misspelled table,
then a plain text reply. -/
def demoReplies : Nat → ModelReply := fun i =>
  if i = 0 then
    { content := [ContentItem.text "I will query the table.",
        ContentItem.toolUse "toolu_01" "database" usresInput],
      stop_reason := "tool_use", input_tokens := 10, output_tokens := 5 }
  else
    { content := [ContentItem.text "All steps are done."],
      stop_reason := "end_turn", input_tokens := 1, output_tokens := 1 }

/-- The conversation of a finished or interrupted run (crash keeps none). -/
def loopMessages : LoopOut → List Message
  | LoopOut.ok st => st.messages
  | LoopOut.fuelOut st => st.messages
  | LoopOut.crash _ => []

/-- An assistant turn carrying a model reply's content. -/
def assistantMsg (c : List ContentItem) : Message := { role := "assistant", content := c }

/-- The user turn carrying the first tool result. -/
def userResultMsg (o : ToolOutput) : Message :=
  { role := "user", content := [ContentItem.toolResult o] }

/-- The id captured by one tool_use block when its tool name matches. -/
def toolUseIdNamed (n : String) : ContentItem → Option String
  | ContentItem.toolUse id name _ => if name = n then some id else none
  | _ => none

/-- The other of the two conversation roles. -/
def flipRole (r : String) : String := if r == "user" then "assistant" else "user"

/-- Strict user/assistant alternation of a role list, starting at the
expected role. -/
def altFrom : String → List String → Bool
  | _, [] => true
  | exp, r :: rs => r == exp && altFrom (flipRole exp) rs

/-- The expected role after n alternating turns. -/
def flipIter (exp : String) : Nat → String
  | 0 => exp
  | n + 1 => flipRole (flipIter exp n)

/-- A session final result that is truthy and unflagged. -/
def okResultJ : JVal := JVal.obj [("complete", JVal.bool true), ("content", JVal.null),
  ("is_error", JVal.bool false)]

/-- A session final result with its error flag set. -/
def errResultJ : JVal := JVal.obj [("complete", JVal.bool false), ("content", JVal.null),
  ("is_error", JVal.bool true)]

/-- Concrete sessions: the editor errors on any input other than "a"; the
bash session returns None as the source does. -/
def demoSessions : SessionFns where
  editor := fun inp _ => if jIsStr inp "a" then some okResultJ else some errResultJ
  bash := fun _ _ => none
  mermaid := fun _ _ => some okResultJ
  database := fun _ _ => some okResultJ

/-- A concrete analysis: primary editor on "a", then secondary editor on "b"
and secondary mermaid on "c". -/
def demoAnalysis : JVal := JVal.obj [
  ("primary_tool", JVal.str "editor"), ("primary_input", JVal.str "a"),
  ("secondary_tools", JVal.arr [JVal.str "editor", JVal.str "mermaid"]),
  ("secondary_inputs", JVal.arr [JVal.str "b", JVal.str "c"])]

/-- A concrete analysis routing to the bash session. -/
def bashAnalysis : JVal := JVal.obj [
  ("primary_tool", JVal.str "bash"), ("primary_input", JVal.str "ls")]

/-- Sessions whose bash member is the constant-None session call. -/
def bashSessions : SessionFns where
  editor := fun _ _ => some okResultJ
  bash := fun _ _ => none
  mermaid := fun _ _ => some okResultJ
  database := fun _ _ => some okResultJ

/-- The tool input of an unknown database operation. -/
def frobInput : ToolInput := [("operation", JVal.str "frobnicate")]

/-- A scripted model that always answers in plain text. -/
def demoTextReplies : Nat → ModelReply := fun _ =>
  { content := [ContentItem.text "Task complete."], stop_reason := "end_turn",
    input_tokens := 3, output_tokens := 2 }

/-- A scripted model that always requests tool use. -/
def demoToolReplies : Nat → ModelReply := fun _ =>
  { content := [ContentItem.toolUse "t1" "bash" []], stop_reason := "tool_use",
    input_tokens := 3, output_tokens := 2 }

/-- An error tool output. -/
def errToolOutput : ToolOutput :=
  { content := ["boom"], tool_use_id := "t1", is_error := true, is_recoverable := none }

/-- An error tool result. -/
def errToolResult : ToolCallResult :=
  { tool_call_id := "t1", output := errToolOutput }

/-- A dispatcher that leaves the conversation alone and always reports the
error tool result. -/
def errExec : List ContentItem → List Message → List Message × List ToolCallResult :=
  fun _ m => (m, [errToolResult])

/-- A loop state seeded with one user turn. -/
def demoLoopSt : LoopSt :=
  { messages := [{ role := "user", content := [ContentItem.text "go"] }],
    input_tokens := 0, output_tokens := 0, model_calls := 0,
    final := { complete := false, content := none, is_error := false } }

/-- The diagnosis of the misspelled-usres query against the demo engine. -/
def diagUsres : Diagnosis :=
  { recoverable := true, diagnosis := "Table \x27usres\x27 not found",
    suggestion := "Similar tables: users, user_roles",
    recovery_action := some "suggest_tables",
    similar_tables := some ["users", "user_roles"], schema := none }

/-! ### Shared lemmas. -/

theorem mem_insertScored (p q : Nat × Nat × String) (l : List (Nat × Nat × String))
    (h : q ∈ insertScored p l) : q = p ∨ q ∈ l := by
  induction l with
  | nil => simpa [insertScored] using h
  | cons x xs ih =>
    simp only [insertScored] at h
    by_cases hc : scoreGt p x
    · rw [if_pos hc] at h
      rcases List.mem_cons.mp h with h | h
      · exact Or.inl h
      · exact Or.inr h
    · rw [if_neg hc] at h
      rcases List.mem_cons.mp h with h | h
      · exact Or.inr (List.mem_cons.mpr (Or.inl h))
      · rcases ih h with h | h
        · exact Or.inl h
        · exact Or.inr (List.mem_cons.mpr (Or.inr h))

theorem mem_foldl_insertScored :
    ∀ (l acc : List (Nat × Nat × String)) (q : Nat × Nat × String),
    q ∈ l.foldl (fun a p => insertScored p a) acc → q ∈ acc ∨ q ∈ l := by
  intro l
  induction l with
  | nil => intro acc q h; exact Or.inl h
  | cons x xs ih =>
    intro acc q h
    rcases ih (insertScored x acc) q h with h | h
    · rcases mem_insertScored x q acc h with h | h
      · exact Or.inr (List.mem_cons.mpr (Or.inl h))
      · exact Or.inl h
    · exact Or.inr (List.mem_cons.mpr (Or.inr h))

theorem close_matches_sound (word : String) (possibilities : List String) (n : Nat)
    (y : String) (h : y ∈ get_close_matches word possibilities n) :
    y ∈ possibilities ∧ simKeepOK y word = true := by
  unfold get_close_matches at h
  rcases List.mem_map.mp h with ⟨p, hp, hpy⟩
  have hp2 : p ∈ sortScoredDesc _ := List.mem_of_mem_take hp
  have hp3 := mem_foldl_insertScored _ [] p hp2
  simp only [List.not_mem_nil, false_or] at hp3
  rcases List.mem_filterMap.mp hp3 with ⟨x, hx, hfx⟩
  by_cases hb : Nat.ble (3 * (x.length + word.length)) (10 * numMatches x.toList word.toList)
  · rw [if_pos hb] at hfx
    cases hfx
    subst hpy
    exact ⟨hx, hb⟩
  · rw [if_neg hb] at hfx
    cases hfx

theorem close_matches_len (word : String) (possibilities : List String) (n : Nat) :
    (get_close_matches word possibilities n).length ≤ n := by
  unfold get_close_matches
  rw [List.length_map]
  exact le_trans (List.length_take_le n _) (le_refl n)

theorem show_schema_has_schema (eng : Engine) (msg op : String) (input : ToolInput)
    (d : Diagnosis) (h : diagnose_error eng msg op input = Except.ok d)
    (ha : d.recovery_action = some "show_schema") :
    ∃ s, d.schema = some s := by
  unfold diagnose_error at h
  by_cases hc1 : (hasSubstr msg "relation" && hasSubstr msg "does not exist") = true
  · rw [if_pos hc1] at h
    cases hrc : relationCapture msg with
    | none => rw [hrc] at h; cases h; cases ha
    | some tn =>
      rw [hrc] at h
      simp only [bind, Except.bind] at h
      cases hgt : get_tables eng with
      | error e2 => rw [hgt] at h; simp at h
      | ok ts => rw [hgt] at h; cases h; simp at ha
  · rw [if_neg hc1] at h
    by_cases hc2 : (hasSubstr msg "column" && hasSubstr msg "does not exist") = true
    · rw [if_pos hc2] at h
      by_cases hn : (tableNameArg input != "") = true
      · rw [if_pos hn] at h
        simp only [bind, Except.bind] at h
        cases hgs : get_table_schema eng (JVal.str (tableNameArg input)) with
        | error e2 => rw [hgs] at h; simp at h
        | ok schema =>
          rw [hgs] at h
          dsimp only at h
          cases hmm : schema.mapM (fun col =>
              match col.lookup "column_name" with
              | some (JVal.str s) => Except.ok s
              | _ => Except.error "KeyError: \x27column_name\x27") with
          | error e2 => rw [hmm] at h; simp at h
          | ok cols =>
            rw [hmm] at h
            cases h
            exact ⟨schema, rfl⟩
      · rw [if_neg hn] at h; cases h; cases ha
    · rw [if_neg hc2] at h
      by_cases hc3 : hasSubstr (lowerStr msg) "permission denied" = true
      · rw [if_pos hc3] at h; cases h; cases ha
      · rw [if_neg hc3] at h; cases h; cases ha

theorem secondaryRun_none_iff (s : SessionFns) (tool tool_input : JVal) (prev : Option JVal) :
    secondaryRun s tool tool_input prev = none ↔ knownSecondary tool = false := by
  unfold secondaryRun knownSecondary
  by_cases h1 : jIsStr tool "editor" = true
  · simp [h1]
  · rw [Bool.not_eq_true] at h1
    by_cases h2 : jIsStr tool "bash" = true
    · simp [h1, h2]
    · rw [Bool.not_eq_true] at h2
      by_cases h3 : jIsStr tool "mermaid" = true
      · simp [h1, h2, h3]
      · rw [Bool.not_eq_true] at h3
        by_cases h4 : jIsStr tool "database" = true
        · simp [h1, h2, h3, h4]
        · rw [Bool.not_eq_true] at h4
          simp [h1, h2, h3, h4]

theorem secondary_fold_log (s : SessionFns) :
    ∀ (pairs : List (JVal × JVal)) (r0 : Option JVal) (log0 : List (JVal × JVal)),
    ((pairs.foldl (secondaryStep s) (r0, log0)).2 =
      log0 ++ pairs.filter (fun p => knownSecondary p.1)) := by
  intro pairs
  induction pairs with
  | nil => intro r0 log0; simp
  | cons p ps ih =>
    intro r0 log0
    rw [List.foldl_cons]
    cases hr : secondaryRun s p.1 p.2 r0 with
    | none =>
      have hk := (secondaryRun_none_iff s p.1 p.2 r0).mp hr
      have hstep : secondaryStep s (r0, log0) p = (r0, log0) := by
        unfold secondaryStep
        rw [hr]
      rw [hstep, ih r0 log0, List.filter_cons, hk]
      simp
    | some r2 =>
      have hk : knownSecondary p.1 = true := by
        by_contra hc
        rw [Bool.not_eq_true] at hc
        rw [(secondaryRun_none_iff s p.1 p.2 r0).mpr hc] at hr
        cases hr
      have hstep : secondaryStep s (r0, log0) p = (r2, log0 ++ [p]) := by
        unfold secondaryStep
        rw [hr]
      rw [hstep, ih r2 (log0 ++ [p]), List.filter_cons, hk]
      simp

theorem editor_ids (handler : ToolInput → List (String × String)) (tcs : List ContentItem) :
    (editor_process_tool_calls handler tcs).map (fun r => (r.tool_call_id, r.output.tool_use_id)) =
      (tcs.filterMap (toolUseIdNamed "str_replace_editor")).map (fun i => (i, i)) := by
  induction tcs with
  | nil => rfl
  | cons tc rest ih =>
    cases tc with
    | text s =>
      simpa [editor_process_tool_calls, toolUseIdNamed, List.filterMap_cons] using ih
    | toolResult o =>
      simpa [editor_process_tool_calls, toolUseIdNamed, List.filterMap_cons] using ih
    | toolUse id name input =>
      by_cases hn : name = "str_replace_editor"
      · subst hn
        simpa [editor_process_tool_calls, toolUseIdNamed, List.filterMap_cons] using ih
      · simpa [editor_process_tool_calls, toolUseIdNamed, List.filterMap_cons, hn] using ih

theorem db_fold_ids (eng : Engine) (tcs : List ContentItem) :
    ∀ (msgs : List Message) (acc : List ToolCallResult),
    ((tcs.foldl (db_tool_call_step eng) (msgs, acc)).2).map
        (fun r => (r.tool_call_id, r.output.tool_use_id)) =
      acc.map (fun r => (r.tool_call_id, r.output.tool_use_id)) ++
        (tcs.filterMap (toolUseIdNamed "database")).map (fun i => (i, i)) := by
  induction tcs with
  | nil => intro msgs acc; simp
  | cons tc rest ih =>
    intro msgs acc
    rw [List.foldl_cons]
    cases tc with
    | text s =>
      rw [show db_tool_call_step eng (msgs, acc) (ContentItem.text s) = (msgs, acc) from rfl]
      simpa [toolUseIdNamed, List.filterMap_cons] using ih msgs acc
    | toolResult o =>
      rw [show db_tool_call_step eng (msgs, acc) (ContentItem.toolResult o) = (msgs, acc) from rfl]
      simpa [toolUseIdNamed, List.filterMap_cons] using ih msgs acc
    | toolUse id name input =>
      by_cases hn : name = "database"
      · subst hn
        cases hj : jlookup (handle_operation eng (operationOf input) input) "recovery_info" with
        | some payload =>
          have hstep : db_tool_call_step eng (msgs, acc) (ContentItem.toolUse id "database" input) =
              (msgs ++ [{ role := "system", content := [ContentItem.text
                ("Error occurred but recovery information is available:\n" ++ dumpsInd 0 payload)] }],
               acc ++ [{ tool_call_id := id, output := {
                 content := [dumps (JVal.obj [("error", JVal.bool true), ("recovery_info", payload)])],
                 tool_use_id := id, is_error := true, is_recoverable := some true } }]) := by
            unfold db_tool_call_step
            dsimp only
            rw [if_pos rfl, hj]
          rw [hstep, ih]
          simp [toolUseIdNamed, List.filterMap_cons]
        | none =>
          have hstep : db_tool_call_step eng (msgs, acc) (ContentItem.toolUse id "database" input) =
              (msgs, acc ++ [{ tool_call_id := id, output := {
                 content := [dumps (JVal.obj [
                   ("analysis", match analysisText msgs with | some s => JVal.str s | none => JVal.null),
                   ("data", handle_operation eng (operationOf input) input)])],
                 tool_use_id := id, is_error := false, is_recoverable := none } }]) := by
            unfold db_tool_call_step
            dsimp only
            rw [if_pos rfl, hj]
          rw [hstep, ih]
          simp [toolUseIdNamed, List.filterMap_cons]
      · rw [show db_tool_call_step eng (msgs, acc) (ContentItem.toolUse id name input) = (msgs, acc) by
          unfold db_tool_call_step; dsimp only; rw [if_neg hn]]
        simpa [toolUseIdNamed, List.filterMap_cons, hn] using ih msgs acc

theorem flipIter_shift : ∀ (n : Nat) (exp : String),
    flipIter exp (n + 1) = flipIter (flipRole exp) n := by
  intro n
  induction n with
  | zero => intro exp; rfl
  | succ n ih =>
    intro exp
    show flipRole (flipIter exp (n + 1)) = flipIter (flipRole exp) (n + 1)
    rw [ih exp]
    rfl

theorem altFrom_snoc : ∀ (rs : List String) (exp : String), altFrom exp rs = true →
    altFrom exp (rs ++ [flipIter exp rs.length]) = true := by
  intro rs
  induction rs with
  | nil => intro exp _; simp [altFrom, flipIter]
  | cons r rs ih =>
    intro exp h
    rw [altFrom, Bool.and_eq_true] at h
    rw [List.cons_append, altFrom, Bool.and_eq_true]
    refine ⟨h.1, ?_⟩
    rw [List.length_cons, flipIter_shift]
    exact ih (flipRole exp) h.2

theorem flipIter_user : ∀ (k : Nat),
    flipIter "user" (2 * k) = "user" ∧ flipIter "user" (2 * k + 1) = "assistant" := by
  intro k
  induction k with
  | zero => exact ⟨rfl, rfl⟩
  | succ k ih =>
    constructor
    · rw [Nat.mul_succ]
      show flipRole (flipIter "user" (2 * k + 1)) = "user"
      rw [ih.2]
      rfl
    · rw [Nat.mul_succ]
      show flipRole (flipRole (flipIter "user" (2 * k + 1))) = "assistant"
      rw [ih.2]
      rfl

theorem altFrom_mem : ∀ (rs : List String) (exp : String), altFrom exp rs = true →
    (exp = "user" ∨ exp = "assistant") → ∀ r ∈ rs, r = "user" ∨ r = "assistant" := by
  intro rs
  induction rs with
  | nil => intro exp _ _ r hr; cases hr
  | cons x xs ih =>
    intro exp h hexp r hr
    rw [altFrom, Bool.and_eq_true] at h
    rcases List.mem_cons.mp hr with hr | hr
    · subst hr
      have hre : r = exp := by
        have := h.1
        simpa using this
      rw [hre]
      exact hexp
    · refine ih (flipRole exp) h.2 ?_ r hr
      rcases hexp with he | he <;> rw [he] <;> simp [flipRole]

theorem loop_alt (get_reply : Nat → ModelReply)
    (exec : List ContentItem → List Message → List Message × List ToolCallResult)
    (hpres : ∀ c m, (exec c m).1 = m)
    (hne : ∀ c m, (exec c m).2 ≠ []) :
    ∀ (fuel i : Nat) (st : LoopSt),
      altFrom "user" (st.messages.map Message.role) = true →
      st.messages.length % 2 = 1 →
      altFrom "user" ((loopMessages (conversationLoop get_reply exec fuel i st)).map Message.role) = true := by
  intro fuel
  induction fuel with
  | zero => intro i st h1 _; exact h1
  | succ fuel ih =>
    intro i st h1 h2
    rw [conversationLoop]
    have hodd : st.messages.length = 2 * (st.messages.length / 2) + 1 := by omega
    have halt1 : altFrom "user"
        ((st.messages ++ [assistantMsg (get_reply i).content]).map Message.role) = true := by
      rw [List.map_append]
      have hstep := altFrom_snoc (st.messages.map Message.role) "user" h1
      rw [List.length_map, hodd, (flipIter_user _).2] at hstep
      exact hstep
    have halt2 : ∀ tr : ToolCallResult, altFrom "user"
        (((st.messages ++ [assistantMsg (get_reply i).content]) ++
          [userResultMsg tr.output]).map Message.role) = true := by
      intro tr
      rw [List.map_append]
      have hstep := altFrom_snoc
        ((st.messages ++ [assistantMsg (get_reply i).content]).map Message.role) "user" halt1
      rw [List.length_map, List.length_append] at hstep
      have heven : st.messages.length + [assistantMsg (get_reply i).content].length =
          2 * ((st.messages.length + 1) / 2) := by
        simp only [List.length_singleton]
        omega
      rw [heven, (flipIter_user _).1] at hstep
      exact hstep
    by_cases hsr : (get_reply i).stop_reason ≠ "tool_use"
    · rw [if_pos hsr]
      cases hc : (get_reply i).content with
      | nil => rfl
      | cons b bs =>
        cases b with
        | text t =>
          dsimp only
          rw [← hc]
          exact halt1
        | toolUse id name input => rfl
        | toolResult o => rfl
    · rw [if_neg hsr]
      dsimp only
      cases hres : (exec (get_reply i).content
          (st.messages ++ [{ role := "assistant", content := (get_reply i).content }])).2 with
      | nil => exact absurd hres (hne _ _)
      | cons tr rest =>
        dsimp only
        have hp : (exec (get_reply i).content
            (st.messages ++ [assistantMsg (get_reply i).content])).1 =
            st.messages ++ [assistantMsg (get_reply i).content] := hpres _ _
        by_cases herr : tr.output.is_error = true
        · rw [if_pos herr]
          show altFrom "user" (((exec (get_reply i).content
            (st.messages ++ [assistantMsg (get_reply i).content])).1 ++
            [userResultMsg tr.output]).map Message.role) = true
          rw [hp]
          exact halt2 tr
        · rw [if_neg herr]
          refine ih (i + 1) _ ?_ ?_
          · show altFrom "user" (((exec (get_reply i).content
              (st.messages ++ [assistantMsg (get_reply i).content])).1 ++
              [userResultMsg tr.output]).map Message.role) = true
            rw [hp]
            exact halt2 tr
          · show ((exec (get_reply i).content
              (st.messages ++ [assistantMsg (get_reply i).content])).1 ++
              [userResultMsg tr.output]).length % 2 = 1
            rw [hp]
            simp only [List.length_append, List.length_singleton]
            omega

/-! ### The claims. -/

/-- Claim C1: for every model reply that does not request tool use (first
block a text block), the conversation loop terminates after that single
iteration, making exactly one model call, and the final completion flag is
true exactly when the reply text contains one of the fixed markers as a
case-insensitive substring; absence of a marker still terminates without an
error flag. -/
theorem c1_no_tool_use_single_iteration
    (get_reply : Nat → ModelReply)
    (exec : List ContentItem → List Message → List Message × List ToolCallResult)
    (fuel : Nat) (user_input : String) (previous_result : Option JVal)
    (t : String) (rest : List ContentItem)
    (h1 : (get_reply 0).stop_reason ≠ "tool_use")
    (h2 : (get_reply 0).content = ContentItem.text t :: rest) :
    ∃ st, process_messages get_reply exec (fuel + 1) user_input previous_result = LoopOut.ok st ∧
      st.model_calls = 1 ∧
      st.final.complete = hasCompletionMarker t ∧
      st.final.is_error = false ∧
      st.final.content = none := by
  unfold process_messages
  rw [conversationLoop]
  simp only [h2, if_pos h1]
  exact ⟨_, rfl, by simp, by simp, rfl, rfl⟩

/-- Witness for C1 at a concrete scripted model whose reply text carries a
marker. -/
theorem c1_no_tool_use_single_iteration_witness :
    ∃ st, process_messages demoTextReplies errExec 3 "hello" none = LoopOut.ok st ∧
      st.model_calls = 1 ∧
      st.final.complete = hasCompletionMarker "Task complete." ∧
      st.final.is_error = false ∧
      st.final.content = none :=
  c1_no_tool_use_single_iteration demoTextReplies errExec 2 "hello" none
    "Task complete." [] (by decide) rfl

/-- Claim C2: if the first tool result produced on iteration k has its error
flag set, the loop appends that result as a user turn and terminates
immediately: the run with any extra fuel equals the one-fuel run (iteration
k+1 never executes), exactly one more model call is made, and the final
result carries the error. -/
theorem c2_error_result_halts_loop
    (get_reply : Nat → ModelReply)
    (exec : List ContentItem → List Message → List Message × List ToolCallResult)
    (fuel k : Nat) (st : LoopSt) (r : ToolCallResult) (rest : List ToolCallResult)
    (msgs1 : List Message)
    (h1 : (get_reply k).stop_reason = "tool_use")
    (h2 : exec (get_reply k).content
        (st.messages ++ [{ role := "assistant", content := (get_reply k).content }]) =
        (msgs1, r :: rest))
    (h3 : r.output.is_error = true) :
    conversationLoop get_reply exec (fuel + 1) k st = conversationLoop get_reply exec 1 k st ∧
    ∃ st2, conversationLoop get_reply exec (fuel + 1) k st = LoopOut.ok st2 ∧
      st2.model_calls = st.model_calls + 1 ∧
      st2.final.is_error = true ∧
      st2.final.content = some r.output ∧
      st2.messages = msgs1 ++ [{ role := "user", content := [ContentItem.toolResult r.output] }] := by
  rw [conversationLoop, conversationLoop]
  simp only [h1, h2, h3, ne_eq, not_true_eq_false, if_false, ite_false]
  exact ⟨rfl, _, rfl, rfl, rfl, rfl, rfl⟩

/-- Witness for C2 at a concrete tool-requesting model and a dispatcher that
reports an error result. -/
theorem c2_error_result_halts_loop_witness :
    conversationLoop demoToolReplies errExec 5 0 demoLoopSt =
      conversationLoop demoToolReplies errExec 1 0 demoLoopSt ∧
    ∃ st2, conversationLoop demoToolReplies errExec 5 0 demoLoopSt = LoopOut.ok st2 ∧
      st2.model_calls = demoLoopSt.model_calls + 1 ∧
      st2.final.is_error = true ∧
      st2.final.content = some errToolResult.output ∧
      st2.messages = (demoLoopSt.messages ++
        [{ role := "assistant", content := (demoToolReplies 0).content }]) ++
        [{ role := "user", content := [ContentItem.toolResult errToolResult.output] }] :=
  c2_error_result_halts_loop demoToolReplies errExec 4 0 demoLoopSt errToolResult []
    (demoLoopSt.messages ++ [{ role := "assistant", content := (demoToolReplies 0).content }])
    rfl rfl rfl

/-- Claim C3: for every database executor failure whose diagnosis is
recoverable with action suggest_tables or show_schema, process_tool_calls
surfaces the recovery payload as a ToolResult with is_error true and
is_recoverable true, whose text content is the serialized error object
carrying the structured recovery_info (a table_suggestions or schema_info
payload matching the action). -/
theorem c3_recoverable_failure_surfaced
    (eng : Engine) (id : String) (input : ToolInput) (msgs : List Message)
    (e : String) (d : Diagnosis)
    (h1 : execute_operation eng (operationOf input) input = Except.error e)
    (h2 : diagnose_error eng e (operationOf input) input = Except.ok d)
    (h3 : d.recoverable = true)
    (h4 : d.recovery_action = some "suggest_tables" ∨ d.recovery_action = some "show_schema") :
    ∃ payload,
      handle_operation eng (operationOf input) input = JVal.obj [("recovery_info", payload)] ∧
      (db_process_tool_calls eng true [ContentItem.toolUse id "database" input] msgs).2 =
        [{ tool_call_id := id, output := {
            content := [dumps (JVal.obj [("error", JVal.bool true), ("recovery_info", payload)])],
            tool_use_id := id, is_error := true, is_recoverable := some true } }] ∧
      (d.recovery_action = some "suggest_tables" →
        jlookup payload "type" = some (JVal.str "table_suggestions")) ∧
      (d.recovery_action = some "show_schema" →
        jlookup payload "type" = some (JVal.str "schema_info")) := by
  have hrec : ∃ payload, attempt_recovery eng d (operationOf input) input =
      Except.ok (JVal.obj [("recovery_info", payload)]) ∧
      (d.recovery_action = some "suggest_tables" →
        jlookup payload "type" = some (JVal.str "table_suggestions")) ∧
      (d.recovery_action = some "show_schema" →
        jlookup payload "type" = some (JVal.str "schema_info")) := by
    rcases h4 with ha | ha
    · refine ⟨JVal.obj [("type", JVal.str "table_suggestions"),
        ("similar_tables", JVal.obj ((d.similar_tables.getD []).foldl (fun acc t =>
          match get_table_schema eng (JVal.str t) with
          | Except.error _ => acc
          | Except.ok schema =>
            match eng.fetch_one ("SELECT * FROM " ++ t ++ " LIMIT 1") none with
            | Except.error _ => acc
            | Except.ok sample =>
              acc ++ [(t, JVal.obj [("schema", rowsJ schema),
                ("sample_data", match sample with | some r => JVal.obj r | none => JVal.null)])]) [])),
        ("original_error", JVal.str d.diagnosis),
        ("suggestion", JVal.str d.suggestion)], ?_, fun _ => rfl, fun hb => ?_⟩
      · unfold attempt_recovery
        rw [if_pos ha]
      · rw [ha] at hb
        simp at hb
    · obtain ⟨s, hs⟩ := show_schema_has_schema eng e (operationOf input) input d h2 ha
      refine ⟨JVal.obj [("type", JVal.str "schema_info"), ("schema", rowsJ s),
        ("original_error", JVal.str d.diagnosis),
        ("suggestion", JVal.str d.suggestion)], ?_, fun hb => ?_, fun _ => rfl⟩
      · unfold attempt_recovery
        rw [if_neg (by rw [ha]; simp), if_pos ha, hs]
      · rw [ha] at hb
        simp at hb
  obtain ⟨payload, hmain, ht1, ht2⟩ := hrec
  have hho : handle_operation eng (operationOf input) input = JVal.obj [("recovery_info", payload)] := by
    unfold handle_operation
    rw [h1]
    dsimp only
    rw [h2]
    dsimp only
    rw [if_pos h3, hmain]
  refine ⟨payload, hho, ?_, ht1, ht2⟩
  simp [db_process_tool_calls, db_tool_call_step, hho, jlookup]

/-- Witness for C3 at the demo engine: the misspelled-usres query fails,
diagnoses as suggest_tables, and is surfaced as a recoverable error. -/
theorem c3_recoverable_failure_surfaced_witness :
    ∃ payload,
      handle_operation demoEngine (operationOf usresInput) usresInput =
        JVal.obj [("recovery_info", payload)] ∧
      (db_process_tool_calls demoEngine true
          [ContentItem.toolUse "toolu_w3" "database" usresInput] []).2 =
        [{ tool_call_id := "toolu_w3", output := {
            content := [dumps (JVal.obj [("error", JVal.bool true), ("recovery_info", payload)])],
            tool_use_id := "toolu_w3", is_error := true, is_recoverable := some true } }] ∧
      (diagUsres.recovery_action = some "suggest_tables" →
        jlookup payload "type" = some (JVal.str "table_suggestions")) ∧
      (diagUsres.recovery_action = some "show_schema" →
        jlookup payload "type" = some (JVal.str "schema_info")) :=
  c3_recoverable_failure_surfaced demoEngine "toolu_w3" usresInput []
    "relation \"usres\" does not exist" diagUsres rfl rfl rfl (Or.inl rfl)

/-- Claim C4: for every error message matching the undefined-relation
pattern (gate substrings present and the pattern capturing X), _diagnose_error
fetches the live table list and returns a recoverable diagnosis with action
suggest_tables whose payload is get_close_matches X tables 3; every
suggestion is a live table name with similarity at least 0.6 to X, at most
three are returned, and on tables [users, user_roles, orders] with offending
name usres the suggestions are exactly [users, user_roles] (so users is
included and orders is not), deterministically. -/
theorem c4_relation_error_suggests_tables
    (eng : Engine) (msg op : String) (input : ToolInput)
    (table_name : String) (tables : List String)
    (h1 : hasSubstr msg "relation" = true)
    (h2 : hasSubstr msg "does not exist" = true)
    (h3 : relationCapture msg = some table_name)
    (h4 : get_tables eng = Except.ok tables) :
    ∃ d, diagnose_error eng msg op input = Except.ok d ∧
      d.recoverable = true ∧
      d.recovery_action = some "suggest_tables" ∧
      d.similar_tables = some (get_close_matches table_name tables 3) ∧
      (∀ y ∈ get_close_matches table_name tables 3,
        y ∈ tables ∧ simKeepOK y table_name = true) ∧
      (get_close_matches table_name tables 3).length ≤ 3 ∧
      get_close_matches "usres" ["users", "user_roles", "orders"] 3 = ["users", "user_roles"] := by
  refine ⟨{ baseDiagnosis with
      recoverable := true,
      diagnosis := "Table \x27" ++ table_name ++ "\x27 not found",
      suggestion := if !(get_close_matches table_name tables 3).isEmpty then
          "Similar tables: " ++ String.intercalate ", " (get_close_matches table_name tables 3)
        else "No similar tables found",
      recovery_action := some "suggest_tables",
      similar_tables := some (get_close_matches table_name tables 3) },
    ?_, rfl, rfl, rfl, ?_, close_matches_len _ _ _, by decide⟩
  · unfold diagnose_error
    rw [if_pos (by rw [h1, h2]; rfl), h3]
    simp only [bind, Except.bind, h4]
  · intro y hy
    exact close_matches_sound _ _ _ _ hy

/-- Witness for C4 at the demo engine and the misspelled-usres message. -/
theorem c4_relation_error_suggests_tables_witness :
    ∃ d, diagnose_error demoEngine "relation \"usres\" does not exist" "query" usresInput =
        Except.ok d ∧
      d.recoverable = true ∧
      d.recovery_action = some "suggest_tables" ∧
      d.similar_tables = some (get_close_matches "usres" ["users", "user_roles", "orders"] 3) ∧
      (∀ y ∈ get_close_matches "usres" ["users", "user_roles", "orders"] 3,
        y ∈ ["users", "user_roles", "orders"] ∧ simKeepOK y "usres" = true) ∧
      (get_close_matches "usres" ["users", "user_roles", "orders"] 3).length ≤ 3 ∧
      get_close_matches "usres" ["users", "user_roles", "orders"] 3 = ["users", "user_roles"] :=
  c4_relation_error_suggests_tables demoEngine "relation \"usres\" does not exist" "query"
    usresInput "usres" ["users", "user_roles", "orders"] rfl rfl rfl rfl

/-- Claim C5, counterexample: the unknown operation frobnicate fails in the
executor with the unknown-operation error, yet the ToolResult produced by
process_tool_calls has is_error = false — the failure is not reported as an
error, contradicting the claim. -/
theorem c5_unknown_operation_counterexample :
    execute_operation demoEngine "frobnicate" frobInput =
      Except.error "Unknown operation: frobnicate" ∧
    (db_process_tool_calls demoEngine true
        [ContentItem.toolUse "toolu_c5" "database" frobInput] []).2.map
      (fun r => r.output.is_error) = [false] :=
  ⟨rfl, rfl⟩

/-- Claim C5 as amended: for every operation name outside the four
recognized ones (whose unknown-operation message does not itself embed a
recognized error pattern), the executor fails immediately with the
unknown-operation error and the diagnosis is non-recoverable, so no
recovery runs; but process_tool_calls wraps the error details into a
ToolResult whose is_error flag is false. -/
theorem c5_unknown_operation_not_flagged
    (eng : Engine) (id op : String) (input : ToolInput) (msgs : List Message)
    (hop : operationOf input = op)
    (h1 : op ≠ "query") (h2 : op ≠ "list_tables")
    (h3 : op ≠ "inspect_table") (h4 : op ≠ "get_schema")
    (hm1 : ¬((hasSubstr ("Unknown operation: " ++ op) "relation" &&
        hasSubstr ("Unknown operation: " ++ op) "does not exist") = true))
    (hm2 : ¬((hasSubstr ("Unknown operation: " ++ op) "column" &&
        hasSubstr ("Unknown operation: " ++ op) "does not exist") = true))
    (hm3 : ¬(hasSubstr (lowerStr ("Unknown operation: " ++ op)) "permission denied" = true)) :
    execute_operation eng op input = Except.error ("Unknown operation: " ++ op) ∧
    diagnose_error eng ("Unknown operation: " ++ op) op input = Except.ok baseDiagnosis ∧
    handle_operation eng op input = JVal.obj [
      ("error", JVal.str ("Unknown operation: " ++ op)),
      ("diagnosis", JVal.str ""), ("suggested_fix", JVal.str "")] ∧
    (db_process_tool_calls eng true [ContentItem.toolUse id "database" input] msgs).2.map
      (fun r => (r.output.is_error, r.output.tool_use_id)) = [(false, id)] := by
  have hexec : execute_operation eng op input = Except.error ("Unknown operation: " ++ op) := by
    unfold execute_operation
    rw [if_neg h1, if_neg h2, if_neg h3, if_neg h4]
  have hdiag : diagnose_error eng ("Unknown operation: " ++ op) op input =
      Except.ok baseDiagnosis := by
    unfold diagnose_error
    rw [if_neg hm1, if_neg hm2, if_neg hm3]
  have hho : handle_operation eng op input = JVal.obj [
      ("error", JVal.str ("Unknown operation: " ++ op)),
      ("diagnosis", JVal.str ""), ("suggested_fix", JVal.str "")] := by
    unfold handle_operation
    rw [hexec]
    dsimp only
    rw [hdiag]
    dsimp only
    rw [if_neg (by simp [baseDiagnosis])]
    rfl
  have hlk : List.lookup "recovery_info" [("error", JVal.str ("Unknown operation: " ++ op)),
      ("diagnosis", JVal.str ""), ("suggested_fix", JVal.str "")] = (none : Option JVal) := rfl
  refine ⟨hexec, hdiag, hho, ?_⟩
  simp [db_process_tool_calls, db_tool_call_step, hop, hho, jlookup, hlk]

/-- Witness for the amended C5 at the concrete operation frobnicate. -/
theorem c5_unknown_operation_not_flagged_witness :
    execute_operation demoEngine "frobnicate" frobInput =
      Except.error ("Unknown operation: " ++ "frobnicate") ∧
    diagnose_error demoEngine ("Unknown operation: " ++ "frobnicate") "frobnicate" frobInput =
      Except.ok baseDiagnosis ∧
    handle_operation demoEngine "frobnicate" frobInput = JVal.obj [
      ("error", JVal.str ("Unknown operation: " ++ "frobnicate")),
      ("diagnosis", JVal.str ""), ("suggested_fix", JVal.str "")] ∧
    (db_process_tool_calls demoEngine true
        [ContentItem.toolUse "toolu_w5" "database" frobInput] []).2.map
      (fun r => (r.output.is_error, r.output.tool_use_id)) = [(false, "toolu_w5")] :=
  c5_unknown_operation_not_flagged demoEngine "toolu_w5" "frobnicate" frobInput []
    rfl (by decide) (by decide) (by decide) (by decide) (by decide) (by decide) (by decide)

/-- Claim C6, counterexample: with primary editor succeeding and secondary
tools [editor, mermaid], the secondary editor call (on input b) returns an
error-flagged result, yet the mermaid invocation (tool i+1) still appears in
the invocation log — chained secondary processing does not short-circuit on
a secondary error, contradicting the claim. -/
theorem c6_secondary_error_counterexample :
    demoSessions.editor (JVal.str "b") (some okResultJ) = some errResultJ ∧
    jTruthy ((jlookup errResultJ "is_error").getD JVal.null) = true ∧
    execute_task demoSessions "u" demoAnalysis =
      Except.ok (some okResultJ, [(JVal.str "editor", JVal.str "a"),
        (JVal.str "editor", JVal.str "b"), (JVal.str "mermaid", JVal.str "c")]) :=
  ⟨rfl, rfl, rfl⟩

/-- Claim C6 as amended: secondary tools run only when the primary result is
truthy and unflagged; once the secondary loop starts, every zipped pair with
a recognized tool name is invoked in order, regardless of the error flags of
intermediate results. -/
theorem c6_secondary_chain_runs_all_pairs
    (s : SessionFns) (user_input : String) (analysis : JVal) (r : Option JVal)
    (hp : primaryRun s (jGetD analysis "primary_tool" (JVal.str "editor"))
      (jGetD analysis "primary_input" (JVal.str user_input)) = Except.ok r) :
    (secondaryGuard r = false →
      execute_task s user_input analysis = Except.ok (r,
        [(jGetD analysis "primary_tool" (JVal.str "editor"),
          jGetD analysis "primary_input" (JVal.str user_input))])) ∧
    (secondaryGuard r = true →
      ∃ res, execute_task s user_input analysis = Except.ok (res,
        (jGetD analysis "primary_tool" (JVal.str "editor"),
          jGetD analysis "primary_input" (JVal.str user_input)) ::
          (secondaryPairs analysis).filter (fun p => knownSecondary p.1))) := by
  constructor
  · intro hg
    unfold execute_task
    dsimp only
    rw [hp]
    dsimp only
    rw [hg]
    simp
  · intro hg
    unfold execute_task
    dsimp only
    rw [hp]
    dsimp only
    rw [hg]
    simp only [if_pos rfl]
    have h2 := secondary_fold_log s (secondaryPairs analysis) r
      [(jGetD analysis "primary_tool" (JVal.str "editor"),
        jGetD analysis "primary_input" (JVal.str user_input))]
    refine ⟨((secondaryPairs analysis).foldl (secondaryStep s)
      (r, [(jGetD analysis "primary_tool" (JVal.str "editor"),
        jGetD analysis "primary_input" (JVal.str user_input))])).1, ?_⟩
    have h3 : ((secondaryPairs analysis).foldl (secondaryStep s)
        (r, [(jGetD analysis "primary_tool" (JVal.str "editor"),
          jGetD analysis "primary_input" (JVal.str user_input))])).2 =
        (jGetD analysis "primary_tool" (JVal.str "editor"),
          jGetD analysis "primary_input" (JVal.str user_input)) ::
          (secondaryPairs analysis).filter (fun p => knownSecondary p.1) := by
      rw [h2]
      rfl
    rw [if_pos trivial, ← h3]

/-- Witness for the amended C6 at the demo sessions and analysis. -/
theorem c6_secondary_chain_runs_all_pairs_witness :
    (secondaryGuard (some okResultJ) = false →
      execute_task demoSessions "u" demoAnalysis = Except.ok (some okResultJ,
        [(jGetD demoAnalysis "primary_tool" (JVal.str "editor"),
          jGetD demoAnalysis "primary_input" (JVal.str "u"))])) ∧
    (secondaryGuard (some okResultJ) = true →
      ∃ res, execute_task demoSessions "u" demoAnalysis = Except.ok (res,
        (jGetD demoAnalysis "primary_tool" (JVal.str "editor"),
          jGetD demoAnalysis "primary_input" (JVal.str "u")) ::
          (secondaryPairs demoAnalysis).filter (fun p => knownSecondary p.1))) :=
  c6_secondary_chain_runs_all_pairs demoSessions "u" demoAnalysis (some okResultJ) rfl

/-- Claim C7: in each of the three dispatchers (editor, bash, database), the
produced results correspond one to one, in order, with the tool_use blocks
naming that dispatcher's tool, and both the result's tool_call_id and its
output's tool_use_id equal the id of the originating invocation,
unchanged. -/
theorem c7_result_token_equals_invocation_token :
    (∀ (handler : ToolInput → List (String × String)) (tcs : List ContentItem),
      (editor_process_tool_calls handler tcs).map (fun r => (r.tool_call_id, r.output.tool_use_id)) =
        (tcs.filterMap (toolUseIdNamed "str_replace_editor")).map (fun i => (i, i))) ∧
    (∀ (handler : ToolInput → List (String × String)) (tcs : List ContentItem),
      (bash_process_tool_calls handler tcs).map (fun r => (r.tool_call_id, r.output.tool_use_id)) =
        (tcs.filterMap (toolUseIdNamed "bash")).map (fun i => (i, i))) ∧
    (∀ (eng : Engine) (enabled : Bool) (msgs : List Message) (tcs : List ContentItem),
      ((db_process_tool_calls eng enabled tcs msgs).2).map
          (fun r => (r.tool_call_id, r.output.tool_use_id)) =
        (tcs.filterMap (toolUseIdNamed "database")).map (fun i => (i, i))) := by
  refine ⟨editor_ids, ?_, ?_⟩
  · intro handler tcs
    induction tcs with
    | nil => rfl
    | cons tc rest ih =>
      cases tc with
      | text s =>
        simpa [bash_process_tool_calls, toolUseIdNamed, List.filterMap_cons] using ih
      | toolResult o =>
        simpa [bash_process_tool_calls, toolUseIdNamed, List.filterMap_cons] using ih
      | toolUse id name input =>
        by_cases hn : name = "bash"
        · subst hn
          simpa [bash_process_tool_calls, toolUseIdNamed, List.filterMap_cons] using ih
        · simpa [bash_process_tool_calls, toolUseIdNamed, List.filterMap_cons, hn] using ih
  · intro eng enabled msgs tcs
    cases enabled with
    | false =>
      rw [show db_process_tool_calls eng false tcs msgs = (msgs, tcs.filterMap (fun tc =>
        match tc with
        | ContentItem.toolUse id name _ =>
          if name = "database" then
            some { tool_call_id := id, output := {
              content := ["Database functionality is not enabled. Please configure database settings in .env file."],
              tool_use_id := id, is_error := true, is_recoverable := some false } }
          else none
        | _ => none)) from rfl]
      induction tcs with
      | nil => rfl
      | cons tc rest ih =>
        cases tc with
        | text s => simpa [toolUseIdNamed, List.filterMap_cons] using ih
        | toolResult o => simpa [toolUseIdNamed, List.filterMap_cons] using ih
        | toolUse id name input =>
          by_cases hn : name = "database"
          · subst hn
            simpa [toolUseIdNamed, List.filterMap_cons] using ih
          · simpa [toolUseIdNamed, List.filterMap_cons, hn] using ih
    | true =>
      rw [show db_process_tool_calls eng true tcs msgs =
        tcs.foldl (db_tool_call_step eng) (msgs, []) from rfl]
      simpa using db_fold_ids eng tcs msgs []

/-- Claim C8, counterexample: a database run whose tool call hits a
recoverable failure appends a system-role recovery turn, so the conversation
roles are [user, assistant, system, user] and not every appended turn has
role user or assistant, contradicting the claim. -/
theorem c8_system_turn_counterexample :
    (loopMessages (process_query demoEngine true demoReplies 5
      "Query the usres table" none)).map Message.role =
      ["user", "assistant", "system", "user"] ∧
    ¬ (∀ r ∈ (loopMessages (process_query demoEngine true demoReplies 5
      "Query the usres table" none)).map Message.role, r = "user" ∨ r = "assistant") := by
  have heq : (loopMessages (process_query demoEngine true demoReplies 5
      "Query the usres table" none)).map Message.role =
      ["user", "assistant", "system", "user"] := by rfl
  refine ⟨heq, fun h => ?_⟩
  have hs : "system" ∈ (loopMessages (process_query demoEngine true demoReplies 5
      "Query the usres table" none)).map Message.role := by
    rw [heq]
    simp
  rcases h "system" hs with hc | hc <;> simp at hc

/-- Claim C8 as amended: whenever the tool dispatcher leaves the
conversation alone and yields at least one result per dispatch, the
conversation appended by the loop strictly alternates user and assistant
turns starting from the seeding user turn (so it ends mid-loop on a user or
an assistant turn and every appended turn has one of those two roles); the
database recovery path violates this by appending a system turn. -/
theorem c8_roles_alternate
    (get_reply : Nat → ModelReply)
    (exec : List ContentItem → List Message → List Message × List ToolCallResult)
    (fuel : Nat) (user_input : String) (previous_result : Option JVal)
    (hpres : ∀ c m, (exec c m).1 = m)
    (hne : ∀ c m, (exec c m).2 ≠ []) :
    altFrom "user" ((loopMessages (process_messages get_reply exec fuel user_input
      previous_result)).map Message.role) = true ∧
    ∀ r ∈ (loopMessages (process_messages get_reply exec fuel user_input
      previous_result)).map Message.role, r = "user" ∨ r = "assistant" := by
  have halt : altFrom "user" ((loopMessages (process_messages get_reply exec fuel user_input
      previous_result)).map Message.role) = true := by
    unfold process_messages
    exact loop_alt get_reply exec hpres hne fuel 0 _ rfl rfl
  exact ⟨halt, altFrom_mem _ "user" halt (Or.inl rfl)⟩

/-- Witness for the amended C8 at a concrete conversation-preserving
dispatcher. -/
theorem c8_roles_alternate_witness :
    altFrom "user" ((loopMessages (process_messages demoToolReplies errExec 4 "go"
      none)).map Message.role) = true ∧
    ∀ r ∈ (loopMessages (process_messages demoToolReplies errExec 4 "go"
      none)).map Message.role, r = "user" ∨ r = "assistant" :=
  c8_roles_alternate demoToolReplies errExec 4 "go" none
    (fun _ _ => rfl) (fun _ _ => List.cons_ne_nil _ _)

/-- Claim C9: whenever the task analyzer's model call fails or its reply
does not parse as JSON, analyze_task returns the fixed default analysis
(primary_tool editor, empty secondary_tools) without raising, and the log
records the failure. -/
theorem c9_analyze_task_fallback
    (model_call : Except String String) (json_loads : String → Except String JVal)
    (h : (∃ e, model_call = Except.error e) ∨
      (∃ t e, model_call = Except.ok t ∧ json_loads t = Except.error e)) :
    (analyze_task model_call json_loads).1 = default_analysis ∧
    jlookup (analyze_task model_call json_loads).1 "primary_tool" = some (JVal.str "editor") ∧
    jlookup (analyze_task model_call json_loads).1 "secondary_tools" = some (JVal.arr []) ∧
    ∃ e, (analyze_task model_call json_loads).2 = ["Error analyzing task: " ++ e] := by
  rcases h with ⟨e, he⟩ | ⟨t, e, ht, he⟩
  · subst he
    exact ⟨rfl, rfl, rfl, ⟨e, rfl⟩⟩
  · subst ht
    have hval : analyze_task (Except.ok t) json_loads =
        (default_analysis, ["Error analyzing task: " ++ e]) := by
      unfold analyze_task
      dsimp only
      rw [he]
    rw [hval]
    exact ⟨rfl, rfl, rfl, ⟨e, rfl⟩⟩

/-- Witness for C9 at a concrete failed model call. -/
theorem c9_analyze_task_fallback_witness :
    (analyze_task (Except.error "boom") (fun _ => Except.ok JVal.null)).1 = default_analysis ∧
    jlookup (analyze_task (Except.error "boom") (fun _ => Except.ok JVal.null)).1
      "primary_tool" = some (JVal.str "editor") ∧
    jlookup (analyze_task (Except.error "boom") (fun _ => Except.ok JVal.null)).1
      "secondary_tools" = some (JVal.arr []) ∧
    ∃ e, (analyze_task (Except.error "boom") (fun _ => Except.ok JVal.null)).2 =
      ["Error analyzing task: " ++ e] :=
  c9_analyze_task_fallback (Except.error "boom") (fun _ => Except.ok JVal.null)
    (Or.inl ⟨"boom", rfl⟩)

/-- Claim C10: process_bash_command always returns None (it runs the loop
but discards its result); consequently, when the primary tool is bash the
truthy-and-unflagged guard of execute_task never holds and no secondary
tool is invoked — the invocation log holds the primary bash call only. -/
theorem c10_bash_returns_none_blocks_secondaries :
    (∀ (handler : ToolInput → List (String × String)) (get_reply : Nat → ModelReply)
      (fuel : Nat) (bash_prompt : String) (previous_result : Option JVal),
      process_bash_command handler get_reply fuel bash_prompt previous_result = none) ∧
    (∀ (s : SessionFns) (user_input : String) (analysis : JVal),
      s.bash = (fun _ _ => none) →
      jGetD analysis "primary_tool" (JVal.str "editor") = JVal.str "bash" →
      execute_task s user_input analysis =
        Except.ok (none, [(JVal.str "bash",
          jGetD analysis "primary_input" (JVal.str user_input))])) := by
  constructor
  · intro handler get_reply fuel bash_prompt previous_result
    rfl
  · intro s user_input analysis h1 h2
    simp [execute_task, h2, primaryRun, h1, jIsStr, secondaryGuard, resultIsErrorVal]

/-- Witness for C10 at a concrete bash-primary analysis whose sessions use
the constant-None bash call. -/
theorem c10_bash_returns_none_blocks_secondaries_witness :
    process_bash_command (fun _ => []) demoTextReplies 1 "ls" none = none ∧
    execute_task bashSessions "u" bashAnalysis =
      Except.ok (none, [(JVal.str "bash",
        jGetD bashAnalysis "primary_input" (JVal.str "u"))]) :=
  ⟨c10_bash_returns_none_blocks_secondaries.1 (fun _ => []) demoTextReplies 1 "ls" none,
   c10_bash_returns_none_blocks_secondaries.2 bashSessions "u" bashAnalysis rfl rfl⟩
